import Mathlib

/-!
# Secretino crypto bridge: shallow embedding of `crypto_bridge.c`

The C functions of `Secretino/Crypto/crypto_bridge.c` are embedded as Lean functions.

* Memory buffers are lists of bytes; an access outside a buffer is a fault
  (`none` for the memory helpers, `Outcome.fault` for the bridge functions).
* A pointer that may be `NULL` is an `Option`.
* C `int` values are integers; every conversion to `int` and every `int`
  addition goes through `toInt`, the two's complement wrap to 32 bits.
* The OpenSSL primitives (`RAND_bytes`, `PKCS5_PBKDF2_HMAC`, the `EVP_*` cipher
  calls), `malloc` and the indeterminate contents of fresh memory are fields of
  an environment `Env`; every call to one of them is recorded in a log.
-/

namespace Secretino

/-! ## Bytes, C strings, C ints -/

abbrev Byte := Fin 256

/-- `SALT_SIZE` of `crypto_bridge.h`. -/
def SALT_SIZE : Nat := 32
/-- `IV_SIZE` of `crypto_bridge.h`. -/
def IV_SIZE : Nat := 12
/-- `KEY_SIZE` of `crypto_bridge.h`. -/
def KEY_SIZE : Nat := 32
/-- `TAG_SIZE` of `crypto_bridge.h`. -/
def TAG_SIZE : Nat := 16
/-- `ITERATIONS` of `crypto_bridge.h`. -/
def ITERATIONS : Nat := 100000

/-- Largest value of a C `int` (32 bits). -/
def INT_MAX : Int := 2147483647

/-- Two's complement wrap of an integer to 32 bits. -/
def wrap32 (x : Int) : Int := (x + 2147483648) % 4294967296 - 2147483648

/-- Conversion of an integer to a 32-bit C `int`: a value in the range of `int`
is kept, any other value is wrapped modulo `2^32`. -/
@[irreducible] def toInt (x : Int) : Int :=
  match x with
  | Int.ofNat n => if n ≤ 2147483647 then Int.ofNat n else wrap32 (Int.ofNat n)
  | Int.negSucc n => if n ≤ 2147483647 then Int.negSucc n else wrap32 (Int.negSucc n)

/-- The bytes of the C string stored at a pointer: everything before the first
NUL byte.  The list is the memory behind the pointer; the terminating NUL that
follows it is implicit. -/
def cstr (s : List Byte) : List Byte := s.takeWhile (fun b => b ≠ 0)

/-- `strlen`: number of bytes before the first NUL. -/
def strlen (s : List Byte) : Nat := (cstr s).length

/-! ## Memory helpers -/

/-- `memcpy(dst + off, src, |src|)`: `none` when the write leaves `dst`. -/
@[irreducible] def memcpy (dst : List Byte) (off : Int) (src : List Byte) : Option (List Byte) :=
  if 0 ≤ off ∧ off + src.length ≤ dst.length then
    some (dst.take off.toNat ++ src ++ dst.drop (off.toNat + src.length))
  else none

/-- Read of `n` bytes at `src + off`: `none` when the read leaves `src`. -/
@[irreducible] def memread (src : List Byte) (off : Int) (n : Nat) : Option (List Byte) :=
  if 0 ≤ off ∧ off + n ≤ src.length then some ((src.drop off.toNat).take n) else none

/-! ## `military_grade_zero` -/

/-- One pass `for (size_t i = 0; i < len; i++) vptr[i] = v;`.  The first
argument is the number of iterations left (`len - i`), the second is `i`. -/
def fill_loop (v : Byte) : Nat → Nat → List Byte → Option (List Byte)
  | 0, _, buf => some buf
  | k + 1, i, buf =>
    if i < buf.length then fill_loop v k (i + 1) (buf.set i v) else none

/-- `military_grade_zero(ptr, len)`.  `ptr` is `none` for `NULL`, else the memory
it points to.  The result is `none` on a fault, else the memory after the call. -/
@[irreducible] def military_grade_zero (ptr : Option (List Byte)) (len : Nat) :
    Option (Option (List Byte)) :=
  match ptr with
  | none => some none
  | some buf =>
    if len = 0 then some (some buf)
    else
      match fill_loop 0x00 len 0 buf with
      | none => none
      | some b1 =>
        match fill_loop 0xFF len 0 b1 with
        | none => none
        | some b2 =>
          match fill_loop 0x00 len 0 b2 with
          | none => none
          | some b3 => some (some b3)

/-! ## Environment: OpenSSL, allocator, indeterminate memory -/

/-- A buffer of exactly `n` bytes (a C array `unsigned char x[n]`). -/
structure Block (n : Nat) where
  bytes : List Byte
  size_eq : bytes.length = n
  deriving DecidableEq

/-- A call to a primitive outside the bridge, with the arguments the bridge
passes that matter to the wire format. -/
inductive Call
  | RAND_bytes (n : Nat)
  | PBKDF2 (passphrase salt : List Byte)
  | malloc (size : Int)
  | CTX_new
  | EncryptInit (key iv : List Byte)
  | EncryptUpdate (input : List Byte)
  | EncryptFinal
  | GET_TAG
  | DecryptInit (key iv : List Byte)
  | DecryptUpdate (input : List Byte)
  | SET_TAG (tag : List Byte)
  | DecryptFinal
  deriving DecidableEq

/-- A logged call and whether it reported success. -/
structure Event where
  call : Call
  ok : Bool
  deriving DecidableEq

/-- The world outside the bridge.  Cipher primitives are functions of the
key, the nonce and the data fed to the context so far; a failing call is `none`
(or `false`). -/
structure Env where
  /-- whether `malloc(sizeof(CryptoResult))` succeeds -/
  malloc_result : Bool
  /-- whether `malloc(256)` for the error message succeeds -/
  malloc_message : Bool
  /-- whether `malloc` of a data buffer of the given size succeeds -/
  malloc_data : Int → Bool
  /-- indeterminate contents of a fresh data buffer -/
  heap : Nat → Byte
  /-- indeterminate contents of the local array `key` at function entry -/
  stack_key : Block KEY_SIZE
  /-- `RAND_bytes(buf, n)`, by call number -/
  RAND_bytes : Nat → (n : Nat) → Option (Block n)
  /-- `PKCS5_PBKDF2_HMAC(pass, passlen, salt, saltlen, iter, EVP_sha256(), keylen, out)` -/
  PKCS5_PBKDF2_HMAC : (pass salt : List Byte) → (iter keylen : Nat) → Option (Block keylen)
  /-- whether `EVP_CIPHER_CTX_new()` returns a context, in the encryption call -/
  EVP_CIPHER_CTX_new_enc : Bool
  /-- whether `EVP_CIPHER_CTX_new()` returns a context, in the decryption call -/
  EVP_CIPHER_CTX_new_dec : Bool
  EVP_EncryptInit_ex : (key iv : List Byte) → Bool
  /-- bytes written by `EVP_EncryptUpdate`; `*outl` is their number -/
  EVP_EncryptUpdate : (key iv input : List Byte) → Option (List Byte)
  /-- bytes written by `EVP_EncryptFinal_ex`; `*outl` is their number -/
  EVP_EncryptFinal_ex : (key iv input : List Byte) → Option (List Byte)
  /-- `EVP_CIPHER_CTX_ctrl(ctx, EVP_CTRL_GCM_GET_TAG, TAG_SIZE, tag)` -/
  GCM_GET_TAG : (key iv input : List Byte) → Option (Block TAG_SIZE)
  EVP_DecryptInit_ex : (key iv : List Byte) → Bool
  /-- bytes written by `EVP_DecryptUpdate`; `*outl` is their number -/
  EVP_DecryptUpdate : (key iv input : List Byte) → Option (List Byte)
  /-- `EVP_CIPHER_CTX_ctrl(ctx, EVP_CTRL_GCM_SET_TAG, TAG_SIZE, tag)` -/
  GCM_SET_TAG : (key iv input tag : List Byte) → Bool
  /-- bytes written by `EVP_DecryptFinal_ex` when the tag verifies, else `none` -/
  EVP_DecryptFinal_ex : (key iv input tag : List Byte) → Option (List Byte)

/-- `malloc(n)` for a data buffer: `NULL` is `none`. -/
@[irreducible] def malloc (env : Env) (n : Int) : Option (List Byte) :=
  if env.malloc_data n then some ((List.range n.toNat).map env.heap) else none

/-! ## Results -/

/-- The C struct `CryptoResult`; `data = none` is the `NULL` pointer, `some buf`
the allocated buffer. -/
structure CryptoResult where
  data : Option (List Byte)
  length : Int
  success : Int
  error_message : String
  deriving DecidableEq

/-- What a bridge function hands back: a fault (an access outside a buffer),
the `NULL` pointer, or a pointer to a result. -/
inductive Outcome
  | fault
  | null
  | result (r : CryptoResult)
  deriving DecidableEq

/-- State at the return of `swift_encrypt_data` / `swift_decrypt_data`: the
returned value, the contents of the local array `key`, and the calls made. -/
structure Exit where
  outcome : Outcome
  key : List Byte
  log : List Event
  deriving DecidableEq

/-- A successful logged call. -/
def Event.pass (c : Call) : Event := ⟨c, true⟩
/-- A failed logged call. -/
def Event.failed (c : Call) : Event := ⟨c, false⟩

/-- Record the call `e`, made before the rest of the execution `x`. -/
def logged (e : Event) (x : Exit) : Exit := ⟨x.outcome, x.key, e :: x.log⟩

/-! ## `derive_key` -/

/-- The passphrase bytes handed to PBKDF2: `passphrase` with length
`(int)strlen(passphrase)`. -/
def passBytes (passphrase : List Byte) : List Byte :=
  passphrase.take (toInt (strlen passphrase)).toNat

/-- `derive_key(passphrase, salt, key)`: the derived key when PBKDF2 returns 1,
`none` when `derive_key` returns 0. -/
def derive_key (env : Env) (passphrase salt : List Byte) : Option (Block KEY_SIZE) :=
  env.PKCS5_PBKDF2_HMAC (passBytes passphrase) (salt.take SALT_SIZE) ITERATIONS KEY_SIZE

/-! ## `swift_encrypt_data` -/

/-- `int plaintext_len = (int)strlen(plaintext);` -/
def plaintext_len (plaintext : List Byte) : Int := toInt (strlen plaintext)

/-- The bytes `EVP_EncryptUpdate` reads: `plaintext_len` bytes at `plaintext`. -/
def encInput (plaintext : List Byte) : List Byte :=
  plaintext.take (plaintext_len plaintext).toNat

/-- The `int` expression `SALT_SIZE + IV_SIZE + plaintext_len + TAG_SIZE`. -/
def encSize (plaintext : List Byte) : Int :=
  toInt (SALT_SIZE + IV_SIZE + plaintext_len plaintext + TAG_SIZE)

/-- `swift_encrypt_data(plaintext, passphrase)`.  `plaintext` and `passphrase`
are the memory behind the two pointers. -/
def swift_encrypt_data (env : Env) (plaintext passphrase : List Byte) : Exit :=
  if env.malloc_result = false then ⟨.null, env.stack_key.bytes, []⟩ else
  if env.malloc_message = false then ⟨.null, env.stack_key.bytes, []⟩ else
  match env.RAND_bytes 0 SALT_SIZE with
  | none =>
    ⟨.result ⟨none, 0, 0, "Erreur lors de la génération de nombres aléatoires"⟩,
      env.stack_key.bytes, [.failed (.RAND_bytes SALT_SIZE)]⟩
  | some salt =>
  logged (.pass (.RAND_bytes SALT_SIZE)) <|
  match env.RAND_bytes 1 IV_SIZE with
  | none =>
    ⟨.result ⟨none, 0, 0, "Erreur lors de la génération de nombres aléatoires"⟩,
      env.stack_key.bytes, [.failed (.RAND_bytes IV_SIZE)]⟩
  | some iv =>
  logged (.pass (.RAND_bytes IV_SIZE)) <|
  match derive_key env passphrase salt.bytes with
  | none =>
    ⟨.result ⟨none, 0, 0, "Erreur lors de la dérivation de la clé"⟩, env.stack_key.bytes,
      [.failed (.PBKDF2 (passBytes passphrase) (salt.bytes.take SALT_SIZE))]⟩
  | some key =>
  logged (.pass (.PBKDF2 (passBytes passphrase) (salt.bytes.take SALT_SIZE))) <|
  match malloc env (encSize plaintext) with
  | none =>
    ⟨.result ⟨none, 0, 0, "Erreur d'allocation mémoire"⟩, key.bytes,
      [.failed (.malloc (encSize plaintext))]⟩
  | some d0 =>
  logged (.pass (.malloc (encSize plaintext))) <|
  match memcpy d0 0 salt.bytes with
  | none => ⟨.fault, key.bytes, []⟩
  | some d1 =>
  match memcpy d1 SALT_SIZE iv.bytes with
  | none => ⟨.fault, key.bytes, []⟩
  | some d2 =>
  if env.EVP_CIPHER_CTX_new_enc = false then
    ⟨.result ⟨none, 0, 0, "Erreur de contexte OpenSSL"⟩, key.bytes, [.failed .CTX_new]⟩
  else
  logged (.pass .CTX_new) <|
  if env.EVP_EncryptInit_ex key.bytes iv.bytes = false then
    ⟨.result ⟨none, 0, 0, "Erreur d'initialisation du chiffrement"⟩, key.bytes,
      [.failed (.EncryptInit key.bytes iv.bytes)]⟩
  else
  logged (.pass (.EncryptInit key.bytes iv.bytes)) <|
  match env.EVP_EncryptUpdate key.bytes iv.bytes (encInput plaintext) with
  | none =>
    ⟨.result ⟨none, 0, 0, "Erreur lors du chiffrement"⟩, key.bytes,
      [.failed (.EncryptUpdate (encInput plaintext))]⟩
  | some out1 =>
  logged (.pass (.EncryptUpdate (encInput plaintext))) <|
  match memcpy d2 (SALT_SIZE + IV_SIZE) out1 with
  | none => ⟨.fault, key.bytes, []⟩
  | some d3 =>
  -- result->length = len;
  match env.EVP_EncryptFinal_ex key.bytes iv.bytes (encInput plaintext) with
  | none =>
    ⟨.result ⟨none, out1.length, 0, "Erreur de finalisation du chiffrement"⟩, key.bytes,
      [.failed .EncryptFinal]⟩
  | some out2 =>
  logged (.pass .EncryptFinal) <|
  match memcpy d3 (SALT_SIZE + IV_SIZE + out1.length) out2 with
  | none => ⟨.fault, key.bytes, []⟩
  | some d4 =>
  -- result->length += len;
  match env.GCM_GET_TAG key.bytes iv.bytes (encInput plaintext) with
  | none =>
    ⟨.result ⟨none, toInt (out1.length + out2.length), 0, "Erreur d'obtention du tag"⟩,
      key.bytes, [.failed .GET_TAG]⟩
  | some tag =>
  logged (.pass .GET_TAG) <|
  match memcpy d4 (SALT_SIZE + IV_SIZE + toInt (out1.length + out2.length)) tag.bytes with
  | none => ⟨.fault, key.bytes, []⟩
  | some d5 =>
  -- result->length = SALT_SIZE + IV_SIZE + result->length + TAG_SIZE;
  match military_grade_zero (some key.bytes) KEY_SIZE with
  | some (some zeroed) =>
    ⟨.result ⟨some d5, toInt (SALT_SIZE + IV_SIZE + toInt (out1.length + out2.length) + TAG_SIZE),
      1, ""⟩, zeroed, []⟩
  | _ => ⟨.fault, key.bytes, []⟩

/-! ## `swift_decrypt_data` -/

/-- `int actual_ciphertext_len = ciphertext_len - SALT_SIZE - IV_SIZE - TAG_SIZE;` -/
def actual_ciphertext_len (ciphertext_len : Int) : Int :=
  toInt (ciphertext_len - SALT_SIZE - IV_SIZE - TAG_SIZE)

/-- The `int` expression `actual_ciphertext_len + 1`. -/
def decSize (ciphertext_len : Int) : Int := toInt (actual_ciphertext_len ciphertext_len + 1)

/-- `swift_decrypt_data(ciphertext, ciphertext_len, passphrase)`.  `ciphertext`
is the memory behind the pointer. -/
def swift_decrypt_data (env : Env) (ciphertext : List Byte) (ciphertext_len : Int)
    (passphrase : List Byte) : Exit :=
  if env.malloc_result = false then ⟨.null, env.stack_key.bytes, []⟩ else
  if env.malloc_message = false then ⟨.null, env.stack_key.bytes, []⟩ else
  if ciphertext_len < SALT_SIZE + IV_SIZE + TAG_SIZE then
    ⟨.result ⟨none, 0, 0, "Données chiffrées invalides"⟩, env.stack_key.bytes, []⟩
  else
  match memread ciphertext 0 SALT_SIZE with
  | none => ⟨.fault, env.stack_key.bytes, []⟩
  | some salt =>
  match memread ciphertext SALT_SIZE IV_SIZE with
  | none => ⟨.fault, env.stack_key.bytes, []⟩
  | some iv =>
  match memread ciphertext (ciphertext_len - TAG_SIZE) TAG_SIZE with
  | none => ⟨.fault, env.stack_key.bytes, []⟩
  | some tag =>
  match derive_key env passphrase salt with
  | none =>
    ⟨.result ⟨none, 0, 0, "Erreur lors de la dérivation de la clé"⟩, env.stack_key.bytes,
      [.failed (.PBKDF2 (passBytes passphrase) (salt.take SALT_SIZE))]⟩
  | some key =>
  logged (.pass (.PBKDF2 (passBytes passphrase) (salt.take SALT_SIZE))) <|
  match malloc env (decSize ciphertext_len) with
  | none =>
    ⟨.result ⟨none, 0, 0, "Erreur d'allocation mémoire"⟩, key.bytes,
      [.failed (.malloc (decSize ciphertext_len))]⟩
  | some d0 =>
  logged (.pass (.malloc (decSize ciphertext_len))) <|
  if env.EVP_CIPHER_CTX_new_dec = false then
    ⟨.result ⟨none, 0, 0, "Erreur de contexte OpenSSL"⟩, key.bytes, [.failed .CTX_new]⟩
  else
  logged (.pass .CTX_new) <|
  if env.EVP_DecryptInit_ex key.bytes iv = false then
    ⟨.result ⟨none, 0, 0, "Erreur d'initialisation du déchiffrement"⟩, key.bytes,
      [.failed (.DecryptInit key.bytes iv)]⟩
  else
  logged (.pass (.DecryptInit key.bytes iv)) <|
  match memread ciphertext (SALT_SIZE + IV_SIZE) (actual_ciphertext_len ciphertext_len).toNat with
  | none => ⟨.fault, key.bytes, []⟩
  | some input =>
  match env.EVP_DecryptUpdate key.bytes iv input with
  | none =>
    ⟨.result ⟨none, 0, 0, "Erreur lors du déchiffrement"⟩, key.bytes,
      [.failed (.DecryptUpdate input)]⟩
  | some out1 =>
  logged (.pass (.DecryptUpdate input)) <|
  match memcpy d0 0 out1 with
  | none => ⟨.fault, key.bytes, []⟩
  | some d1 =>
  -- result->length = len;
  if env.GCM_SET_TAG key.bytes iv input tag = false then
    ⟨.result ⟨none, out1.length, 0, "Erreur de définition du tag"⟩, key.bytes,
      [.failed (.SET_TAG tag)]⟩
  else
  logged (.pass (.SET_TAG tag)) <|
  match env.EVP_DecryptFinal_ex key.bytes iv input tag with
  | none =>
    ⟨.result ⟨none, out1.length, 0, "Authentification échouée ou passphrase incorrecte"⟩,
      key.bytes, [.failed .DecryptFinal]⟩
  | some out2 =>
  logged (.pass .DecryptFinal) <|
  match memcpy d1 out1.length out2 with
  | none => ⟨.fault, key.bytes, []⟩
  | some d2 =>
  -- result->length += len; result->data[result->length] = '\0';
  match memcpy d2 (toInt (out1.length + out2.length)) [0] with
  | none => ⟨.fault, key.bytes, []⟩
  | some d3 =>
  match military_grade_zero (some key.bytes) KEY_SIZE with
  | some (some zeroed) =>
    ⟨.result ⟨some d3, toInt (out1.length + out2.length), 1, ""⟩, zeroed, []⟩
  | _ => ⟨.fault, key.bytes, []⟩

/-! ## A concrete environment

A small deterministic stand-in for OpenSSL, used to run the bridge on concrete
inputs: the key is the byte sum of passphrase and salt, the cipher adds the
first key byte to every byte, the tag is a checksum of key and ciphertext, and
the tag check recomputes it. -/

/-- Sum of a list of bytes modulo 256. -/
def byteSum (l : List Byte) : Byte := l.foldr (fun b acc => b + acc) 0

/-- Tag of the stand-in cipher. -/
def demoTag (key cipher : List Byte) : Block TAG_SIZE :=
  ⟨List.replicate TAG_SIZE (2 * key.headD 0 + byteSum cipher + 1), by simp⟩

/-- The stand-in environment: every allocation and call succeeds. -/
def demoEnv : Env where
  malloc_result := true
  malloc_message := true
  malloc_data := fun _ => true
  heap := fun _ => 0xAA
  stack_key := ⟨List.replicate KEY_SIZE 0x55, by simp⟩
  RAND_bytes := fun i n => some ⟨List.replicate n (if i = 0 then 0x11 else 0x22), by simp⟩
  PKCS5_PBKDF2_HMAC := fun pass salt _ keylen =>
    some ⟨List.replicate keylen (byteSum pass + byteSum salt), by simp⟩
  EVP_CIPHER_CTX_new_enc := true
  EVP_CIPHER_CTX_new_dec := true
  EVP_EncryptInit_ex := fun _ _ => true
  EVP_EncryptUpdate := fun key _ input => some (input.map (fun b => b + key.headD 0))
  EVP_EncryptFinal_ex := fun _ _ _ => some []
  GCM_GET_TAG := fun key _ input => some (demoTag key (input.map (fun b => b + key.headD 0)))
  EVP_DecryptInit_ex := fun _ _ => true
  EVP_DecryptUpdate := fun key _ input => some (input.map (fun b => b - key.headD 0))
  GCM_SET_TAG := fun _ _ _ _ => true
  EVP_DecryptFinal_ex := fun key _ input tag =>
    if tag = (demoTag key input).bytes then some [] else none

/-! ## Facts about `military_grade_zero` -/

theorem fill_loop_spec (v : Byte) :
    ∀ (k i : Nat) (buf : List Byte), i + k ≤ buf.length →
      ∃ out, fill_loop v k i buf = some out ∧ out.length = buf.length ∧
        ∀ j, out[j]? = if i ≤ j ∧ j < i + k then some v else buf[j]? := by
  intro k
  induction k with
  | zero =>
    intro i buf _
    refine ⟨buf, rfl, rfl, ?_⟩
    intro j
    have : ¬ (i ≤ j ∧ j < i + 0) := by omega
    rw [if_neg this]
  | succ k ih =>
    intro i buf h
    have hi : i < buf.length := by omega
    obtain ⟨out, h1, h2, h3⟩ := ih (i + 1) (buf.set i v) (by simp; omega)
    refine ⟨out, ?_, ?_, ?_⟩
    · simp [fill_loop, hi, h1]
    · simpa using h2
    · intro j
      rw [h3 j, List.getElem?_set]
      by_cases hj : i = j
      · subst hj
        simp [hi]
      · by_cases hj2 : i + 1 ≤ j ∧ j < i + 1 + k
        · have : i ≤ j ∧ j < i + (k + 1) := by omega
          simp [hj2, this]
        · have : ¬ (i ≤ j ∧ j < i + (k + 1)) := by omega
          simp [hj2, this, hj]

theorem military_grade_zero_spec (buf : List Byte) (len : Nat) (h : len ≤ buf.length) :
    ∃ out, military_grade_zero (some buf) len = some (some out) ∧
      out.length = buf.length ∧ ∀ j, out[j]? = if j < len then some 0 else buf[j]? := by
  by_cases h0 : len = 0
  · subst h0
    exact ⟨buf, by simp [military_grade_zero], rfl, by simp⟩
  · obtain ⟨b1, e1, l1, g1⟩ := fill_loop_spec 0x00 len 0 buf (by omega)
    obtain ⟨b2, e2, l2, g2⟩ := fill_loop_spec 0xFF len 0 b1 (by omega)
    obtain ⟨b3, e3, l3, g3⟩ := fill_loop_spec 0x00 len 0 b2 (by omega)
    refine ⟨b3, ?_, by omega, ?_⟩
    · simp [military_grade_zero, h0, e1, e2, e3]
    · intro j
      rw [g3 j, g2 j, g1 j]
      by_cases hj : j < len
      · simp [hj]
      · simp [hj]

theorem military_grade_zero_key (key : List Byte) (h : key.length = KEY_SIZE) :
    military_grade_zero (some key) KEY_SIZE = some (some (List.replicate KEY_SIZE 0)) := by
  obtain ⟨out, e, l, g⟩ := military_grade_zero_spec key KEY_SIZE (by omega)
  rw [e]
  congr 2
  apply List.ext_getElem?
  intro j
  rw [g j, List.getElem?_replicate]
  by_cases hj : j < KEY_SIZE
  · simp [hj]
  · simp only [hj, if_false]
    exact List.getElem?_eq_none (by omega)

/-! ## Exits of the two bridge functions -/

@[simp] theorem logged_outcome (e : Event) (x : Exit) : (logged e x).outcome = x.outcome := rfl

@[simp] theorem logged_key (e : Event) (x : Exit) : (logged e x).key = x.key := rfl

@[simp] theorem logged_log (e : Event) (x : Exit) : (logged e x).log = e :: x.log := rfl

/-- Case principle for `swift_encrypt_data`: one premise per exit of the function,
each with the outcomes of the calls made on the way. -/
theorem swift_encrypt_data_cases (env : Env) (plaintext passphrase : List Byte) (P : Exit → Prop)
    (on_null_result :
        env.malloc_result = false →
      P ⟨.null, env.stack_key.bytes, []⟩)
    (on_null_message :
        env.malloc_result = true →
        env.malloc_message = false →
      P ⟨.null, env.stack_key.bytes, []⟩)
    (on_rand_salt :
        env.malloc_result = true →
        env.malloc_message = true →
        env.RAND_bytes 0 SALT_SIZE = none →
      P ⟨.result ⟨none, 0, 0, "Erreur lors de la génération de nombres aléatoires"⟩, env.stack_key.bytes,
        [.failed (.RAND_bytes SALT_SIZE)]⟩)
    (on_rand_iv :
        env.malloc_result = true →
        env.malloc_message = true →
        ∀ (salt : Block SALT_SIZE), env.RAND_bytes 0 SALT_SIZE = some salt →
        env.RAND_bytes 1 IV_SIZE = none →
      P ⟨.result ⟨none, 0, 0, "Erreur lors de la génération de nombres aléatoires"⟩, env.stack_key.bytes,
        [.pass (.RAND_bytes SALT_SIZE),
        .failed (.RAND_bytes IV_SIZE)]⟩)
    (on_derive :
        env.malloc_result = true →
        env.malloc_message = true →
        ∀ (salt : Block SALT_SIZE), env.RAND_bytes 0 SALT_SIZE = some salt →
        ∀ (iv : Block IV_SIZE), env.RAND_bytes 1 IV_SIZE = some iv →
        derive_key env passphrase salt.bytes = none →
      P ⟨.result ⟨none, 0, 0, "Erreur lors de la dérivation de la clé"⟩, env.stack_key.bytes,
        [.pass (.RAND_bytes SALT_SIZE),
        .pass (.RAND_bytes IV_SIZE),
        .failed (.PBKDF2 (passBytes passphrase) (salt.bytes.take SALT_SIZE))]⟩)
    (on_alloc :
        env.malloc_result = true →
        env.malloc_message = true →
        ∀ (salt : Block SALT_SIZE), env.RAND_bytes 0 SALT_SIZE = some salt →
        ∀ (iv : Block IV_SIZE), env.RAND_bytes 1 IV_SIZE = some iv →
        ∀ (key : Block KEY_SIZE), derive_key env passphrase salt.bytes = some key →
        malloc env (encSize plaintext) = none →
      P ⟨.result ⟨none, 0, 0, "Erreur d'allocation mémoire"⟩, key.bytes,
        [.pass (.RAND_bytes SALT_SIZE),
        .pass (.RAND_bytes IV_SIZE),
        .pass (.PBKDF2 (passBytes passphrase) (salt.bytes.take SALT_SIZE)),
        .failed (.malloc (encSize plaintext))]⟩)
    (on_fault_salt :
        env.malloc_result = true →
        env.malloc_message = true →
        ∀ (salt : Block SALT_SIZE), env.RAND_bytes 0 SALT_SIZE = some salt →
        ∀ (iv : Block IV_SIZE), env.RAND_bytes 1 IV_SIZE = some iv →
        ∀ (key : Block KEY_SIZE), derive_key env passphrase salt.bytes = some key →
        ∀ (d0 : List Byte), malloc env (encSize plaintext) = some d0 →
        memcpy d0 0 salt.bytes = none →
      P ⟨.fault, key.bytes, [.pass (.RAND_bytes SALT_SIZE),
        .pass (.RAND_bytes IV_SIZE),
        .pass (.PBKDF2 (passBytes passphrase) (salt.bytes.take SALT_SIZE)),
        .pass (.malloc (encSize plaintext))]⟩)
    (on_fault_iv :
        env.malloc_result = true →
        env.malloc_message = true →
        ∀ (salt : Block SALT_SIZE), env.RAND_bytes 0 SALT_SIZE = some salt →
        ∀ (iv : Block IV_SIZE), env.RAND_bytes 1 IV_SIZE = some iv →
        ∀ (key : Block KEY_SIZE), derive_key env passphrase salt.bytes = some key →
        ∀ (d0 : List Byte), malloc env (encSize plaintext) = some d0 →
        ∀ (d1 : List Byte), memcpy d0 0 salt.bytes = some d1 →
        memcpy d1 SALT_SIZE iv.bytes = none →
      P ⟨.fault, key.bytes, [.pass (.RAND_bytes SALT_SIZE),
        .pass (.RAND_bytes IV_SIZE),
        .pass (.PBKDF2 (passBytes passphrase) (salt.bytes.take SALT_SIZE)),
        .pass (.malloc (encSize plaintext))]⟩)
    (on_ctx :
        env.malloc_result = true →
        env.malloc_message = true →
        ∀ (salt : Block SALT_SIZE), env.RAND_bytes 0 SALT_SIZE = some salt →
        ∀ (iv : Block IV_SIZE), env.RAND_bytes 1 IV_SIZE = some iv →
        ∀ (key : Block KEY_SIZE), derive_key env passphrase salt.bytes = some key →
        ∀ (d0 : List Byte), malloc env (encSize plaintext) = some d0 →
        ∀ (d1 : List Byte), memcpy d0 0 salt.bytes = some d1 →
        ∀ (d2 : List Byte), memcpy d1 SALT_SIZE iv.bytes = some d2 →
        env.EVP_CIPHER_CTX_new_enc = false →
      P ⟨.result ⟨none, 0, 0, "Erreur de contexte OpenSSL"⟩, key.bytes,
        [.pass (.RAND_bytes SALT_SIZE),
        .pass (.RAND_bytes IV_SIZE),
        .pass (.PBKDF2 (passBytes passphrase) (salt.bytes.take SALT_SIZE)),
        .pass (.malloc (encSize plaintext)),
        .failed (.CTX_new)]⟩)
    (on_init :
        env.malloc_result = true →
        env.malloc_message = true →
        ∀ (salt : Block SALT_SIZE), env.RAND_bytes 0 SALT_SIZE = some salt →
        ∀ (iv : Block IV_SIZE), env.RAND_bytes 1 IV_SIZE = some iv →
        ∀ (key : Block KEY_SIZE), derive_key env passphrase salt.bytes = some key →
        ∀ (d0 : List Byte), malloc env (encSize plaintext) = some d0 →
        ∀ (d1 : List Byte), memcpy d0 0 salt.bytes = some d1 →
        ∀ (d2 : List Byte), memcpy d1 SALT_SIZE iv.bytes = some d2 →
        env.EVP_CIPHER_CTX_new_enc = true →
        env.EVP_EncryptInit_ex key.bytes iv.bytes = false →
      P ⟨.result ⟨none, 0, 0, "Erreur d'initialisation du chiffrement"⟩, key.bytes,
        [.pass (.RAND_bytes SALT_SIZE),
        .pass (.RAND_bytes IV_SIZE),
        .pass (.PBKDF2 (passBytes passphrase) (salt.bytes.take SALT_SIZE)),
        .pass (.malloc (encSize plaintext)),
        .pass (.CTX_new),
        .failed (.EncryptInit key.bytes iv.bytes)]⟩)
    (on_update :
        env.malloc_result = true →
        env.malloc_message = true →
        ∀ (salt : Block SALT_SIZE), env.RAND_bytes 0 SALT_SIZE = some salt →
        ∀ (iv : Block IV_SIZE), env.RAND_bytes 1 IV_SIZE = some iv →
        ∀ (key : Block KEY_SIZE), derive_key env passphrase salt.bytes = some key →
        ∀ (d0 : List Byte), malloc env (encSize plaintext) = some d0 →
        ∀ (d1 : List Byte), memcpy d0 0 salt.bytes = some d1 →
        ∀ (d2 : List Byte), memcpy d1 SALT_SIZE iv.bytes = some d2 →
        env.EVP_CIPHER_CTX_new_enc = true →
        env.EVP_EncryptInit_ex key.bytes iv.bytes = true →
        env.EVP_EncryptUpdate key.bytes iv.bytes (encInput plaintext) = none →
      P ⟨.result ⟨none, 0, 0, "Erreur lors du chiffrement"⟩, key.bytes,
        [.pass (.RAND_bytes SALT_SIZE),
        .pass (.RAND_bytes IV_SIZE),
        .pass (.PBKDF2 (passBytes passphrase) (salt.bytes.take SALT_SIZE)),
        .pass (.malloc (encSize plaintext)),
        .pass (.CTX_new),
        .pass (.EncryptInit key.bytes iv.bytes),
        .failed (.EncryptUpdate (encInput plaintext))]⟩)
    (on_fault_update :
        env.malloc_result = true →
        env.malloc_message = true →
        ∀ (salt : Block SALT_SIZE), env.RAND_bytes 0 SALT_SIZE = some salt →
        ∀ (iv : Block IV_SIZE), env.RAND_bytes 1 IV_SIZE = some iv →
        ∀ (key : Block KEY_SIZE), derive_key env passphrase salt.bytes = some key →
        ∀ (d0 : List Byte), malloc env (encSize plaintext) = some d0 →
        ∀ (d1 : List Byte), memcpy d0 0 salt.bytes = some d1 →
        ∀ (d2 : List Byte), memcpy d1 SALT_SIZE iv.bytes = some d2 →
        env.EVP_CIPHER_CTX_new_enc = true →
        env.EVP_EncryptInit_ex key.bytes iv.bytes = true →
        ∀ (out1 : List Byte), env.EVP_EncryptUpdate key.bytes iv.bytes (encInput plaintext) = some out1 →
        memcpy d2 (SALT_SIZE + IV_SIZE) out1 = none →
      P ⟨.fault, key.bytes, [.pass (.RAND_bytes SALT_SIZE),
        .pass (.RAND_bytes IV_SIZE),
        .pass (.PBKDF2 (passBytes passphrase) (salt.bytes.take SALT_SIZE)),
        .pass (.malloc (encSize plaintext)),
        .pass (.CTX_new),
        .pass (.EncryptInit key.bytes iv.bytes),
        .pass (.EncryptUpdate (encInput plaintext))]⟩)
    (on_final :
        env.malloc_result = true →
        env.malloc_message = true →
        ∀ (salt : Block SALT_SIZE), env.RAND_bytes 0 SALT_SIZE = some salt →
        ∀ (iv : Block IV_SIZE), env.RAND_bytes 1 IV_SIZE = some iv →
        ∀ (key : Block KEY_SIZE), derive_key env passphrase salt.bytes = some key →
        ∀ (d0 : List Byte), malloc env (encSize plaintext) = some d0 →
        ∀ (d1 : List Byte), memcpy d0 0 salt.bytes = some d1 →
        ∀ (d2 : List Byte), memcpy d1 SALT_SIZE iv.bytes = some d2 →
        env.EVP_CIPHER_CTX_new_enc = true →
        env.EVP_EncryptInit_ex key.bytes iv.bytes = true →
        ∀ (out1 : List Byte), env.EVP_EncryptUpdate key.bytes iv.bytes (encInput plaintext) = some out1 →
        ∀ (d3 : List Byte), memcpy d2 (SALT_SIZE + IV_SIZE) out1 = some d3 →
        env.EVP_EncryptFinal_ex key.bytes iv.bytes (encInput plaintext) = none →
      P ⟨.result ⟨none, out1.length, 0, "Erreur de finalisation du chiffrement"⟩, key.bytes,
        [.pass (.RAND_bytes SALT_SIZE),
        .pass (.RAND_bytes IV_SIZE),
        .pass (.PBKDF2 (passBytes passphrase) (salt.bytes.take SALT_SIZE)),
        .pass (.malloc (encSize plaintext)),
        .pass (.CTX_new),
        .pass (.EncryptInit key.bytes iv.bytes),
        .pass (.EncryptUpdate (encInput plaintext)),
        .failed (.EncryptFinal)]⟩)
    (on_fault_final :
        env.malloc_result = true →
        env.malloc_message = true →
        ∀ (salt : Block SALT_SIZE), env.RAND_bytes 0 SALT_SIZE = some salt →
        ∀ (iv : Block IV_SIZE), env.RAND_bytes 1 IV_SIZE = some iv →
        ∀ (key : Block KEY_SIZE), derive_key env passphrase salt.bytes = some key →
        ∀ (d0 : List Byte), malloc env (encSize plaintext) = some d0 →
        ∀ (d1 : List Byte), memcpy d0 0 salt.bytes = some d1 →
        ∀ (d2 : List Byte), memcpy d1 SALT_SIZE iv.bytes = some d2 →
        env.EVP_CIPHER_CTX_new_enc = true →
        env.EVP_EncryptInit_ex key.bytes iv.bytes = true →
        ∀ (out1 : List Byte), env.EVP_EncryptUpdate key.bytes iv.bytes (encInput plaintext) = some out1 →
        ∀ (d3 : List Byte), memcpy d2 (SALT_SIZE + IV_SIZE) out1 = some d3 →
        ∀ (out2 : List Byte), env.EVP_EncryptFinal_ex key.bytes iv.bytes (encInput plaintext) = some out2 →
        memcpy d3 (SALT_SIZE + IV_SIZE + out1.length) out2 = none →
      P ⟨.fault, key.bytes, [.pass (.RAND_bytes SALT_SIZE),
        .pass (.RAND_bytes IV_SIZE),
        .pass (.PBKDF2 (passBytes passphrase) (salt.bytes.take SALT_SIZE)),
        .pass (.malloc (encSize plaintext)),
        .pass (.CTX_new),
        .pass (.EncryptInit key.bytes iv.bytes),
        .pass (.EncryptUpdate (encInput plaintext)),
        .pass (.EncryptFinal)]⟩)
    (on_get_tag :
        env.malloc_result = true →
        env.malloc_message = true →
        ∀ (salt : Block SALT_SIZE), env.RAND_bytes 0 SALT_SIZE = some salt →
        ∀ (iv : Block IV_SIZE), env.RAND_bytes 1 IV_SIZE = some iv →
        ∀ (key : Block KEY_SIZE), derive_key env passphrase salt.bytes = some key →
        ∀ (d0 : List Byte), malloc env (encSize plaintext) = some d0 →
        ∀ (d1 : List Byte), memcpy d0 0 salt.bytes = some d1 →
        ∀ (d2 : List Byte), memcpy d1 SALT_SIZE iv.bytes = some d2 →
        env.EVP_CIPHER_CTX_new_enc = true →
        env.EVP_EncryptInit_ex key.bytes iv.bytes = true →
        ∀ (out1 : List Byte), env.EVP_EncryptUpdate key.bytes iv.bytes (encInput plaintext) = some out1 →
        ∀ (d3 : List Byte), memcpy d2 (SALT_SIZE + IV_SIZE) out1 = some d3 →
        ∀ (out2 : List Byte), env.EVP_EncryptFinal_ex key.bytes iv.bytes (encInput plaintext) = some out2 →
        ∀ (d4 : List Byte), memcpy d3 (SALT_SIZE + IV_SIZE + out1.length) out2 = some d4 →
        env.GCM_GET_TAG key.bytes iv.bytes (encInput plaintext) = none →
      P ⟨.result ⟨none, toInt (out1.length + out2.length), 0, "Erreur d'obtention du tag"⟩, key.bytes,
        [.pass (.RAND_bytes SALT_SIZE),
        .pass (.RAND_bytes IV_SIZE),
        .pass (.PBKDF2 (passBytes passphrase) (salt.bytes.take SALT_SIZE)),
        .pass (.malloc (encSize plaintext)),
        .pass (.CTX_new),
        .pass (.EncryptInit key.bytes iv.bytes),
        .pass (.EncryptUpdate (encInput plaintext)),
        .pass (.EncryptFinal),
        .failed (.GET_TAG)]⟩)
    (on_fault_tag :
        env.malloc_result = true →
        env.malloc_message = true →
        ∀ (salt : Block SALT_SIZE), env.RAND_bytes 0 SALT_SIZE = some salt →
        ∀ (iv : Block IV_SIZE), env.RAND_bytes 1 IV_SIZE = some iv →
        ∀ (key : Block KEY_SIZE), derive_key env passphrase salt.bytes = some key →
        ∀ (d0 : List Byte), malloc env (encSize plaintext) = some d0 →
        ∀ (d1 : List Byte), memcpy d0 0 salt.bytes = some d1 →
        ∀ (d2 : List Byte), memcpy d1 SALT_SIZE iv.bytes = some d2 →
        env.EVP_CIPHER_CTX_new_enc = true →
        env.EVP_EncryptInit_ex key.bytes iv.bytes = true →
        ∀ (out1 : List Byte), env.EVP_EncryptUpdate key.bytes iv.bytes (encInput plaintext) = some out1 →
        ∀ (d3 : List Byte), memcpy d2 (SALT_SIZE + IV_SIZE) out1 = some d3 →
        ∀ (out2 : List Byte), env.EVP_EncryptFinal_ex key.bytes iv.bytes (encInput plaintext) = some out2 →
        ∀ (d4 : List Byte), memcpy d3 (SALT_SIZE + IV_SIZE + out1.length) out2 = some d4 →
        ∀ (tag : Block TAG_SIZE), env.GCM_GET_TAG key.bytes iv.bytes (encInput plaintext) = some tag →
        memcpy d4 (SALT_SIZE + IV_SIZE + toInt (out1.length + out2.length)) tag.bytes = none →
      P ⟨.fault, key.bytes, [.pass (.RAND_bytes SALT_SIZE),
        .pass (.RAND_bytes IV_SIZE),
        .pass (.PBKDF2 (passBytes passphrase) (salt.bytes.take SALT_SIZE)),
        .pass (.malloc (encSize plaintext)),
        .pass (.CTX_new),
        .pass (.EncryptInit key.bytes iv.bytes),
        .pass (.EncryptUpdate (encInput plaintext)),
        .pass (.EncryptFinal),
        .pass (.GET_TAG)]⟩)
    (on_success :
        env.malloc_result = true →
        env.malloc_message = true →
        ∀ (salt : Block SALT_SIZE), env.RAND_bytes 0 SALT_SIZE = some salt →
        ∀ (iv : Block IV_SIZE), env.RAND_bytes 1 IV_SIZE = some iv →
        ∀ (key : Block KEY_SIZE), derive_key env passphrase salt.bytes = some key →
        ∀ (d0 : List Byte), malloc env (encSize plaintext) = some d0 →
        ∀ (d1 : List Byte), memcpy d0 0 salt.bytes = some d1 →
        ∀ (d2 : List Byte), memcpy d1 SALT_SIZE iv.bytes = some d2 →
        env.EVP_CIPHER_CTX_new_enc = true →
        env.EVP_EncryptInit_ex key.bytes iv.bytes = true →
        ∀ (out1 : List Byte), env.EVP_EncryptUpdate key.bytes iv.bytes (encInput plaintext) = some out1 →
        ∀ (d3 : List Byte), memcpy d2 (SALT_SIZE + IV_SIZE) out1 = some d3 →
        ∀ (out2 : List Byte), env.EVP_EncryptFinal_ex key.bytes iv.bytes (encInput plaintext) = some out2 →
        ∀ (d4 : List Byte), memcpy d3 (SALT_SIZE + IV_SIZE + out1.length) out2 = some d4 →
        ∀ (tag : Block TAG_SIZE), env.GCM_GET_TAG key.bytes iv.bytes (encInput plaintext) = some tag →
        ∀ (d5 : List Byte), memcpy d4 (SALT_SIZE + IV_SIZE + toInt (out1.length + out2.length)) tag.bytes = some d5 →
      P ⟨.result ⟨some d5, toInt (SALT_SIZE + IV_SIZE + toInt (out1.length + out2.length) + TAG_SIZE), 1, ""⟩,
        List.replicate KEY_SIZE 0, [.pass (.RAND_bytes SALT_SIZE),
        .pass (.RAND_bytes IV_SIZE),
        .pass (.PBKDF2 (passBytes passphrase) (salt.bytes.take SALT_SIZE)),
        .pass (.malloc (encSize plaintext)),
        .pass (.CTX_new),
        .pass (.EncryptInit key.bytes iv.bytes),
        .pass (.EncryptUpdate (encInput plaintext)),
        .pass (.EncryptFinal),
        .pass (.GET_TAG)]⟩) :
    P (swift_encrypt_data env plaintext passphrase) := by
  cases hr : env.malloc_result with
  | false =>
    have e := on_null_result  hr
    simp only [swift_encrypt_data, logged, hr, if_true, if_false,
      Bool.true_eq_false, Bool.false_eq_true]
    exact e
  | true =>
    cases hm : env.malloc_message with
    | false =>
      have e := on_null_message hr hm
      simp only [swift_encrypt_data, logged, hr, hm, if_true, if_false,
        Bool.true_eq_false, Bool.false_eq_true]
      exact e
    | true =>
      cases hsalt : env.RAND_bytes 0 SALT_SIZE with
      | none =>
        have e := on_rand_salt hr hm hsalt
        simp only [swift_encrypt_data, logged, hr, hm, hsalt, if_true, if_false,
          Bool.true_eq_false, Bool.false_eq_true]
        exact e
      | some salt =>
        cases hiv : env.RAND_bytes 1 IV_SIZE with
        | none =>
          have e := on_rand_iv hr hm salt hsalt hiv
          simp only [swift_encrypt_data, logged, hr, hm, hsalt, hiv, if_true, if_false,
            Bool.true_eq_false, Bool.false_eq_true]
          exact e
        | some iv =>
          cases hkey : derive_key env passphrase salt.bytes with
          | none =>
            have e := on_derive hr hm salt hsalt iv hiv hkey
            simp only [swift_encrypt_data, logged, hr, hm, hsalt, hiv, hkey, if_true, if_false,
              Bool.true_eq_false, Bool.false_eq_true]
            exact e
          | some key =>
            cases hd0 : malloc env (encSize plaintext) with
            | none =>
              have e := on_alloc hr hm salt hsalt iv hiv key hkey hd0
              simp only [swift_encrypt_data, logged, hr, hm, hsalt, hiv, hkey, hd0, if_true, if_false,
                Bool.true_eq_false, Bool.false_eq_true]
              exact e
            | some d0 =>
              cases hd1 : memcpy d0 0 salt.bytes with
              | none =>
                have e := on_fault_salt hr hm salt hsalt iv hiv key hkey d0 hd0 hd1
                simp only [swift_encrypt_data, logged, hr, hm, hsalt, hiv, hkey, hd0, hd1, if_true, if_false,
                  Bool.true_eq_false, Bool.false_eq_true]
                exact e
              | some d1 =>
                cases hd2 : memcpy d1 SALT_SIZE iv.bytes with
                | none =>
                  have e := on_fault_iv hr hm salt hsalt iv hiv key hkey d0 hd0 d1 hd1 hd2
                  simp only [swift_encrypt_data, logged, hr, hm, hsalt, hiv, hkey, hd0, hd1, hd2, if_true, if_false,
                    Bool.true_eq_false, Bool.false_eq_true]
                  exact e
                | some d2 =>
                  cases hctx : env.EVP_CIPHER_CTX_new_enc with
                  | false =>
                    have e := on_ctx hr hm salt hsalt iv hiv key hkey d0 hd0 d1 hd1 d2 hd2 hctx
                    simp only [swift_encrypt_data, logged, hr, hm, hsalt, hiv, hkey, hd0, hd1, hd2, hctx, if_true, if_false,
                      Bool.true_eq_false, Bool.false_eq_true]
                    exact e
                  | true =>
                    cases hinit : env.EVP_EncryptInit_ex key.bytes iv.bytes with
                    | false =>
                      have e := on_init hr hm salt hsalt iv hiv key hkey d0 hd0 d1 hd1 d2 hd2 hctx hinit
                      simp only [swift_encrypt_data, logged, hr, hm, hsalt, hiv, hkey, hd0, hd1, hd2, hctx, hinit, if_true, if_false,
                        Bool.true_eq_false, Bool.false_eq_true]
                      exact e
                    | true =>
                      cases hupd : env.EVP_EncryptUpdate key.bytes iv.bytes (encInput plaintext) with
                      | none =>
                        have e := on_update hr hm salt hsalt iv hiv key hkey d0 hd0 d1 hd1 d2 hd2 hctx hinit hupd
                        simp only [swift_encrypt_data, logged, hr, hm, hsalt, hiv, hkey, hd0, hd1, hd2, hctx, hinit, hupd, if_true, if_false,
                          Bool.true_eq_false, Bool.false_eq_true]
                        exact e
                      | some out1 =>
                        cases hd3 : memcpy d2 (SALT_SIZE + IV_SIZE) out1 with
                        | none =>
                          have e := on_fault_update hr hm salt hsalt iv hiv key hkey d0 hd0 d1 hd1 d2 hd2 hctx hinit out1 hupd hd3
                          simp only [swift_encrypt_data, logged, hr, hm, hsalt, hiv, hkey, hd0, hd1, hd2, hctx, hinit, hupd, hd3, if_true, if_false,
                            Bool.true_eq_false, Bool.false_eq_true]
                          exact e
                        | some d3 =>
                          cases hfin : env.EVP_EncryptFinal_ex key.bytes iv.bytes (encInput plaintext) with
                          | none =>
                            have e := on_final hr hm salt hsalt iv hiv key hkey d0 hd0 d1 hd1 d2 hd2 hctx hinit out1 hupd d3 hd3 hfin
                            simp only [swift_encrypt_data, logged, hr, hm, hsalt, hiv, hkey, hd0, hd1, hd2, hctx, hinit, hupd, hd3, hfin, if_true, if_false,
                              Bool.true_eq_false, Bool.false_eq_true]
                            exact e
                          | some out2 =>
                            cases hd4 : memcpy d3 (SALT_SIZE + IV_SIZE + out1.length) out2 with
                            | none =>
                              have e := on_fault_final hr hm salt hsalt iv hiv key hkey d0 hd0 d1 hd1 d2 hd2 hctx hinit out1 hupd d3 hd3 out2 hfin hd4
                              simp only [swift_encrypt_data, logged, hr, hm, hsalt, hiv, hkey, hd0, hd1, hd2, hctx, hinit, hupd, hd3, hfin, hd4, if_true, if_false,
                                Bool.true_eq_false, Bool.false_eq_true]
                              exact e
                            | some d4 =>
                              cases htag : env.GCM_GET_TAG key.bytes iv.bytes (encInput plaintext) with
                              | none =>
                                have e := on_get_tag hr hm salt hsalt iv hiv key hkey d0 hd0 d1 hd1 d2 hd2 hctx hinit out1 hupd d3 hd3 out2 hfin d4 hd4 htag
                                simp only [swift_encrypt_data, logged, hr, hm, hsalt, hiv, hkey, hd0, hd1, hd2, hctx, hinit, hupd, hd3, hfin, hd4, htag, if_true, if_false,
                                  Bool.true_eq_false, Bool.false_eq_true]
                                exact e
                              | some tag =>
                                cases hd5 : memcpy d4 (SALT_SIZE + IV_SIZE + toInt (out1.length + out2.length)) tag.bytes with
                                | none =>
                                  have e := on_fault_tag hr hm salt hsalt iv hiv key hkey d0 hd0 d1 hd1 d2 hd2 hctx hinit out1 hupd d3 hd3 out2 hfin d4 hd4 tag htag hd5
                                  simp only [swift_encrypt_data, logged, hr, hm, hsalt, hiv, hkey, hd0, hd1, hd2, hctx, hinit, hupd, hd3, hfin, hd4, htag, hd5, if_true, if_false,
                                    Bool.true_eq_false, Bool.false_eq_true]
                                  exact e
                                | some d5 =>
                                  have e := on_success hr hm salt hsalt iv hiv key hkey d0 hd0 d1 hd1 d2 hd2 hctx hinit out1 hupd d3 hd3 out2 hfin d4 hd4 tag htag d5 hd5
                                  simp only [swift_encrypt_data, logged, hr, hm, hsalt, hiv, hkey, hd0, hd1, hd2, hctx, hinit, hupd, hd3, hfin, hd4, htag, hd5, military_grade_zero_key key.bytes key.size_eq, if_true, if_false,
                                    Bool.true_eq_false, Bool.false_eq_true]
                                  exact e

/-- Case principle for `swift_decrypt_data`: one premise per exit of the function,
each with the outcomes of the calls made on the way. -/
theorem swift_decrypt_data_cases (env : Env) (ciphertext : List Byte) (ciphertext_len : Int)
    (passphrase : List Byte) (P : Exit → Prop)
    (on_null_result :
        env.malloc_result = false →
      P ⟨.null, env.stack_key.bytes, []⟩)
    (on_null_message :
        env.malloc_result = true →
        env.malloc_message = false →
      P ⟨.null, env.stack_key.bytes, []⟩)
    (on_short :
        env.malloc_result = true →
        env.malloc_message = true →
        ciphertext_len < 60 →
      P ⟨.result ⟨none, 0, 0, "Données chiffrées invalides"⟩, env.stack_key.bytes, []⟩)
    (on_fault_salt :
        env.malloc_result = true →
        env.malloc_message = true →
        60 ≤ ciphertext_len →
        memread ciphertext 0 SALT_SIZE = none →
      P ⟨.fault, env.stack_key.bytes, []⟩)
    (on_fault_iv :
        env.malloc_result = true →
        env.malloc_message = true →
        60 ≤ ciphertext_len →
        ∀ (salt : List Byte), memread ciphertext 0 SALT_SIZE = some salt →
        memread ciphertext SALT_SIZE IV_SIZE = none →
      P ⟨.fault, env.stack_key.bytes, []⟩)
    (on_fault_tag :
        env.malloc_result = true →
        env.malloc_message = true →
        60 ≤ ciphertext_len →
        ∀ (salt : List Byte), memread ciphertext 0 SALT_SIZE = some salt →
        ∀ (iv : List Byte), memread ciphertext SALT_SIZE IV_SIZE = some iv →
        memread ciphertext (ciphertext_len - TAG_SIZE) TAG_SIZE = none →
      P ⟨.fault, env.stack_key.bytes, []⟩)
    (on_derive :
        env.malloc_result = true →
        env.malloc_message = true →
        60 ≤ ciphertext_len →
        ∀ (salt : List Byte), memread ciphertext 0 SALT_SIZE = some salt →
        ∀ (iv : List Byte), memread ciphertext SALT_SIZE IV_SIZE = some iv →
        ∀ (tag : List Byte), memread ciphertext (ciphertext_len - TAG_SIZE) TAG_SIZE = some tag →
        derive_key env passphrase salt = none →
      P ⟨.result ⟨none, 0, 0, "Erreur lors de la dérivation de la clé"⟩, env.stack_key.bytes,
        [.failed (.PBKDF2 (passBytes passphrase) (salt.take SALT_SIZE))]⟩)
    (on_alloc :
        env.malloc_result = true →
        env.malloc_message = true →
        60 ≤ ciphertext_len →
        ∀ (salt : List Byte), memread ciphertext 0 SALT_SIZE = some salt →
        ∀ (iv : List Byte), memread ciphertext SALT_SIZE IV_SIZE = some iv →
        ∀ (tag : List Byte), memread ciphertext (ciphertext_len - TAG_SIZE) TAG_SIZE = some tag →
        ∀ (key : Block KEY_SIZE), derive_key env passphrase salt = some key →
        malloc env (decSize ciphertext_len) = none →
      P ⟨.result ⟨none, 0, 0, "Erreur d'allocation mémoire"⟩, key.bytes,
        [.pass (.PBKDF2 (passBytes passphrase) (salt.take SALT_SIZE)),
        .failed (.malloc (decSize ciphertext_len))]⟩)
    (on_ctx :
        env.malloc_result = true →
        env.malloc_message = true →
        60 ≤ ciphertext_len →
        ∀ (salt : List Byte), memread ciphertext 0 SALT_SIZE = some salt →
        ∀ (iv : List Byte), memread ciphertext SALT_SIZE IV_SIZE = some iv →
        ∀ (tag : List Byte), memread ciphertext (ciphertext_len - TAG_SIZE) TAG_SIZE = some tag →
        ∀ (key : Block KEY_SIZE), derive_key env passphrase salt = some key →
        ∀ (d0 : List Byte), malloc env (decSize ciphertext_len) = some d0 →
        env.EVP_CIPHER_CTX_new_dec = false →
      P ⟨.result ⟨none, 0, 0, "Erreur de contexte OpenSSL"⟩, key.bytes,
        [.pass (.PBKDF2 (passBytes passphrase) (salt.take SALT_SIZE)),
        .pass (.malloc (decSize ciphertext_len)),
        .failed (.CTX_new)]⟩)
    (on_init :
        env.malloc_result = true →
        env.malloc_message = true →
        60 ≤ ciphertext_len →
        ∀ (salt : List Byte), memread ciphertext 0 SALT_SIZE = some salt →
        ∀ (iv : List Byte), memread ciphertext SALT_SIZE IV_SIZE = some iv →
        ∀ (tag : List Byte), memread ciphertext (ciphertext_len - TAG_SIZE) TAG_SIZE = some tag →
        ∀ (key : Block KEY_SIZE), derive_key env passphrase salt = some key →
        ∀ (d0 : List Byte), malloc env (decSize ciphertext_len) = some d0 →
        env.EVP_CIPHER_CTX_new_dec = true →
        env.EVP_DecryptInit_ex key.bytes iv = false →
      P ⟨.result ⟨none, 0, 0, "Erreur d'initialisation du déchiffrement"⟩, key.bytes,
        [.pass (.PBKDF2 (passBytes passphrase) (salt.take SALT_SIZE)),
        .pass (.malloc (decSize ciphertext_len)),
        .pass (.CTX_new),
        .failed (.DecryptInit key.bytes iv)]⟩)
    (on_fault_input :
        env.malloc_result = true →
        env.malloc_message = true →
        60 ≤ ciphertext_len →
        ∀ (salt : List Byte), memread ciphertext 0 SALT_SIZE = some salt →
        ∀ (iv : List Byte), memread ciphertext SALT_SIZE IV_SIZE = some iv →
        ∀ (tag : List Byte), memread ciphertext (ciphertext_len - TAG_SIZE) TAG_SIZE = some tag →
        ∀ (key : Block KEY_SIZE), derive_key env passphrase salt = some key →
        ∀ (d0 : List Byte), malloc env (decSize ciphertext_len) = some d0 →
        env.EVP_CIPHER_CTX_new_dec = true →
        env.EVP_DecryptInit_ex key.bytes iv = true →
        memread ciphertext (SALT_SIZE + IV_SIZE) (actual_ciphertext_len ciphertext_len).toNat = none →
      P ⟨.fault, key.bytes, [.pass (.PBKDF2 (passBytes passphrase) (salt.take SALT_SIZE)),
        .pass (.malloc (decSize ciphertext_len)),
        .pass (.CTX_new),
        .pass (.DecryptInit key.bytes iv)]⟩)
    (on_update :
        env.malloc_result = true →
        env.malloc_message = true →
        60 ≤ ciphertext_len →
        ∀ (salt : List Byte), memread ciphertext 0 SALT_SIZE = some salt →
        ∀ (iv : List Byte), memread ciphertext SALT_SIZE IV_SIZE = some iv →
        ∀ (tag : List Byte), memread ciphertext (ciphertext_len - TAG_SIZE) TAG_SIZE = some tag →
        ∀ (key : Block KEY_SIZE), derive_key env passphrase salt = some key →
        ∀ (d0 : List Byte), malloc env (decSize ciphertext_len) = some d0 →
        env.EVP_CIPHER_CTX_new_dec = true →
        env.EVP_DecryptInit_ex key.bytes iv = true →
        ∀ (input : List Byte), memread ciphertext (SALT_SIZE + IV_SIZE) (actual_ciphertext_len ciphertext_len).toNat = some input →
        env.EVP_DecryptUpdate key.bytes iv input = none →
      P ⟨.result ⟨none, 0, 0, "Erreur lors du déchiffrement"⟩, key.bytes,
        [.pass (.PBKDF2 (passBytes passphrase) (salt.take SALT_SIZE)),
        .pass (.malloc (decSize ciphertext_len)),
        .pass (.CTX_new),
        .pass (.DecryptInit key.bytes iv),
        .failed (.DecryptUpdate input)]⟩)
    (on_fault_update :
        env.malloc_result = true →
        env.malloc_message = true →
        60 ≤ ciphertext_len →
        ∀ (salt : List Byte), memread ciphertext 0 SALT_SIZE = some salt →
        ∀ (iv : List Byte), memread ciphertext SALT_SIZE IV_SIZE = some iv →
        ∀ (tag : List Byte), memread ciphertext (ciphertext_len - TAG_SIZE) TAG_SIZE = some tag →
        ∀ (key : Block KEY_SIZE), derive_key env passphrase salt = some key →
        ∀ (d0 : List Byte), malloc env (decSize ciphertext_len) = some d0 →
        env.EVP_CIPHER_CTX_new_dec = true →
        env.EVP_DecryptInit_ex key.bytes iv = true →
        ∀ (input : List Byte), memread ciphertext (SALT_SIZE + IV_SIZE) (actual_ciphertext_len ciphertext_len).toNat = some input →
        ∀ (out1 : List Byte), env.EVP_DecryptUpdate key.bytes iv input = some out1 →
        memcpy d0 0 out1 = none →
      P ⟨.fault, key.bytes, [.pass (.PBKDF2 (passBytes passphrase) (salt.take SALT_SIZE)),
        .pass (.malloc (decSize ciphertext_len)),
        .pass (.CTX_new),
        .pass (.DecryptInit key.bytes iv),
        .pass (.DecryptUpdate input)]⟩)
    (on_set_tag :
        env.malloc_result = true →
        env.malloc_message = true →
        60 ≤ ciphertext_len →
        ∀ (salt : List Byte), memread ciphertext 0 SALT_SIZE = some salt →
        ∀ (iv : List Byte), memread ciphertext SALT_SIZE IV_SIZE = some iv →
        ∀ (tag : List Byte), memread ciphertext (ciphertext_len - TAG_SIZE) TAG_SIZE = some tag →
        ∀ (key : Block KEY_SIZE), derive_key env passphrase salt = some key →
        ∀ (d0 : List Byte), malloc env (decSize ciphertext_len) = some d0 →
        env.EVP_CIPHER_CTX_new_dec = true →
        env.EVP_DecryptInit_ex key.bytes iv = true →
        ∀ (input : List Byte), memread ciphertext (SALT_SIZE + IV_SIZE) (actual_ciphertext_len ciphertext_len).toNat = some input →
        ∀ (out1 : List Byte), env.EVP_DecryptUpdate key.bytes iv input = some out1 →
        ∀ (d1 : List Byte), memcpy d0 0 out1 = some d1 →
        env.GCM_SET_TAG key.bytes iv input tag = false →
      P ⟨.result ⟨none, out1.length, 0, "Erreur de définition du tag"⟩, key.bytes,
        [.pass (.PBKDF2 (passBytes passphrase) (salt.take SALT_SIZE)),
        .pass (.malloc (decSize ciphertext_len)),
        .pass (.CTX_new),
        .pass (.DecryptInit key.bytes iv),
        .pass (.DecryptUpdate input),
        .failed (.SET_TAG tag)]⟩)
    (on_final :
        env.malloc_result = true →
        env.malloc_message = true →
        60 ≤ ciphertext_len →
        ∀ (salt : List Byte), memread ciphertext 0 SALT_SIZE = some salt →
        ∀ (iv : List Byte), memread ciphertext SALT_SIZE IV_SIZE = some iv →
        ∀ (tag : List Byte), memread ciphertext (ciphertext_len - TAG_SIZE) TAG_SIZE = some tag →
        ∀ (key : Block KEY_SIZE), derive_key env passphrase salt = some key →
        ∀ (d0 : List Byte), malloc env (decSize ciphertext_len) = some d0 →
        env.EVP_CIPHER_CTX_new_dec = true →
        env.EVP_DecryptInit_ex key.bytes iv = true →
        ∀ (input : List Byte), memread ciphertext (SALT_SIZE + IV_SIZE) (actual_ciphertext_len ciphertext_len).toNat = some input →
        ∀ (out1 : List Byte), env.EVP_DecryptUpdate key.bytes iv input = some out1 →
        ∀ (d1 : List Byte), memcpy d0 0 out1 = some d1 →
        env.GCM_SET_TAG key.bytes iv input tag = true →
        env.EVP_DecryptFinal_ex key.bytes iv input tag = none →
      P ⟨.result ⟨none, out1.length, 0, "Authentification échouée ou passphrase incorrecte"⟩, key.bytes,
        [.pass (.PBKDF2 (passBytes passphrase) (salt.take SALT_SIZE)),
        .pass (.malloc (decSize ciphertext_len)),
        .pass (.CTX_new),
        .pass (.DecryptInit key.bytes iv),
        .pass (.DecryptUpdate input),
        .pass (.SET_TAG tag),
        .failed (.DecryptFinal)]⟩)
    (on_fault_final :
        env.malloc_result = true →
        env.malloc_message = true →
        60 ≤ ciphertext_len →
        ∀ (salt : List Byte), memread ciphertext 0 SALT_SIZE = some salt →
        ∀ (iv : List Byte), memread ciphertext SALT_SIZE IV_SIZE = some iv →
        ∀ (tag : List Byte), memread ciphertext (ciphertext_len - TAG_SIZE) TAG_SIZE = some tag →
        ∀ (key : Block KEY_SIZE), derive_key env passphrase salt = some key →
        ∀ (d0 : List Byte), malloc env (decSize ciphertext_len) = some d0 →
        env.EVP_CIPHER_CTX_new_dec = true →
        env.EVP_DecryptInit_ex key.bytes iv = true →
        ∀ (input : List Byte), memread ciphertext (SALT_SIZE + IV_SIZE) (actual_ciphertext_len ciphertext_len).toNat = some input →
        ∀ (out1 : List Byte), env.EVP_DecryptUpdate key.bytes iv input = some out1 →
        ∀ (d1 : List Byte), memcpy d0 0 out1 = some d1 →
        env.GCM_SET_TAG key.bytes iv input tag = true →
        ∀ (out2 : List Byte), env.EVP_DecryptFinal_ex key.bytes iv input tag = some out2 →
        memcpy d1 out1.length out2 = none →
      P ⟨.fault, key.bytes, [.pass (.PBKDF2 (passBytes passphrase) (salt.take SALT_SIZE)),
        .pass (.malloc (decSize ciphertext_len)),
        .pass (.CTX_new),
        .pass (.DecryptInit key.bytes iv),
        .pass (.DecryptUpdate input),
        .pass (.SET_TAG tag),
        .pass (.DecryptFinal)]⟩)
    (on_fault_nul :
        env.malloc_result = true →
        env.malloc_message = true →
        60 ≤ ciphertext_len →
        ∀ (salt : List Byte), memread ciphertext 0 SALT_SIZE = some salt →
        ∀ (iv : List Byte), memread ciphertext SALT_SIZE IV_SIZE = some iv →
        ∀ (tag : List Byte), memread ciphertext (ciphertext_len - TAG_SIZE) TAG_SIZE = some tag →
        ∀ (key : Block KEY_SIZE), derive_key env passphrase salt = some key →
        ∀ (d0 : List Byte), malloc env (decSize ciphertext_len) = some d0 →
        env.EVP_CIPHER_CTX_new_dec = true →
        env.EVP_DecryptInit_ex key.bytes iv = true →
        ∀ (input : List Byte), memread ciphertext (SALT_SIZE + IV_SIZE) (actual_ciphertext_len ciphertext_len).toNat = some input →
        ∀ (out1 : List Byte), env.EVP_DecryptUpdate key.bytes iv input = some out1 →
        ∀ (d1 : List Byte), memcpy d0 0 out1 = some d1 →
        env.GCM_SET_TAG key.bytes iv input tag = true →
        ∀ (out2 : List Byte), env.EVP_DecryptFinal_ex key.bytes iv input tag = some out2 →
        ∀ (d2 : List Byte), memcpy d1 out1.length out2 = some d2 →
        memcpy d2 (toInt (out1.length + out2.length)) [0] = none →
      P ⟨.fault, key.bytes, [.pass (.PBKDF2 (passBytes passphrase) (salt.take SALT_SIZE)),
        .pass (.malloc (decSize ciphertext_len)),
        .pass (.CTX_new),
        .pass (.DecryptInit key.bytes iv),
        .pass (.DecryptUpdate input),
        .pass (.SET_TAG tag),
        .pass (.DecryptFinal)]⟩)
    (on_success :
        env.malloc_result = true →
        env.malloc_message = true →
        60 ≤ ciphertext_len →
        ∀ (salt : List Byte), memread ciphertext 0 SALT_SIZE = some salt →
        ∀ (iv : List Byte), memread ciphertext SALT_SIZE IV_SIZE = some iv →
        ∀ (tag : List Byte), memread ciphertext (ciphertext_len - TAG_SIZE) TAG_SIZE = some tag →
        ∀ (key : Block KEY_SIZE), derive_key env passphrase salt = some key →
        ∀ (d0 : List Byte), malloc env (decSize ciphertext_len) = some d0 →
        env.EVP_CIPHER_CTX_new_dec = true →
        env.EVP_DecryptInit_ex key.bytes iv = true →
        ∀ (input : List Byte), memread ciphertext (SALT_SIZE + IV_SIZE) (actual_ciphertext_len ciphertext_len).toNat = some input →
        ∀ (out1 : List Byte), env.EVP_DecryptUpdate key.bytes iv input = some out1 →
        ∀ (d1 : List Byte), memcpy d0 0 out1 = some d1 →
        env.GCM_SET_TAG key.bytes iv input tag = true →
        ∀ (out2 : List Byte), env.EVP_DecryptFinal_ex key.bytes iv input tag = some out2 →
        ∀ (d2 : List Byte), memcpy d1 out1.length out2 = some d2 →
        ∀ (d3 : List Byte), memcpy d2 (toInt (out1.length + out2.length)) [0] = some d3 →
      P ⟨.result ⟨some d3, toInt (out1.length + out2.length), 1, ""⟩,
        List.replicate KEY_SIZE 0, [.pass (.PBKDF2 (passBytes passphrase) (salt.take SALT_SIZE)),
        .pass (.malloc (decSize ciphertext_len)),
        .pass (.CTX_new),
        .pass (.DecryptInit key.bytes iv),
        .pass (.DecryptUpdate input),
        .pass (.SET_TAG tag),
        .pass (.DecryptFinal)]⟩) :
    P (swift_decrypt_data env ciphertext ciphertext_len passphrase) := by
  cases hr : env.malloc_result with
  | false =>
    have e := on_null_result  hr
    simp only [swift_decrypt_data, logged, hr, if_true, if_false,
      Bool.true_eq_false, Bool.false_eq_true]
    exact e
  | true =>
    cases hm : env.malloc_message with
    | false =>
      have e := on_null_message hr hm
      simp only [swift_decrypt_data, logged, hr, hm, if_true, if_false,
        Bool.true_eq_false, Bool.false_eq_true]
      exact e
    | true =>
      by_cases hlen : ciphertext_len < 60
      · have h60 : ciphertext_len < (SALT_SIZE : Int) + IV_SIZE + TAG_SIZE := by
          simp only [SALT_SIZE, IV_SIZE, TAG_SIZE]; omega
        have e := on_short hr hm hlen
        simp only [swift_decrypt_data, logged, hr, hm, h60, if_true, if_false,
          Bool.true_eq_false, Bool.false_eq_true]
        exact e
      · have h60 : ¬ ciphertext_len < (SALT_SIZE : Int) + IV_SIZE + TAG_SIZE := by
          simp only [SALT_SIZE, IV_SIZE, TAG_SIZE]; omega
        have hlen : 60 ≤ ciphertext_len := by omega
        cases hsalt : memread ciphertext 0 SALT_SIZE with
        | none =>
          have e := on_fault_salt hr hm hlen hsalt
          simp only [swift_decrypt_data, logged, hr, hm, h60, hsalt, if_true, if_false,
            Bool.true_eq_false, Bool.false_eq_true]
          exact e
        | some salt =>
          cases hiv : memread ciphertext SALT_SIZE IV_SIZE with
          | none =>
            have e := on_fault_iv hr hm hlen salt hsalt hiv
            simp only [swift_decrypt_data, logged, hr, hm, h60, hsalt, hiv, if_true, if_false,
              Bool.true_eq_false, Bool.false_eq_true]
            exact e
          | some iv =>
            cases htag : memread ciphertext (ciphertext_len - TAG_SIZE) TAG_SIZE with
            | none =>
              have e := on_fault_tag hr hm hlen salt hsalt iv hiv htag
              simp only [swift_decrypt_data, logged, hr, hm, h60, hsalt, hiv, htag, if_true, if_false,
                Bool.true_eq_false, Bool.false_eq_true]
              exact e
            | some tag =>
              cases hkey : derive_key env passphrase salt with
              | none =>
                have e := on_derive hr hm hlen salt hsalt iv hiv tag htag hkey
                simp only [swift_decrypt_data, logged, hr, hm, h60, hsalt, hiv, htag, hkey, if_true, if_false,
                  Bool.true_eq_false, Bool.false_eq_true]
                exact e
              | some key =>
                cases hd0 : malloc env (decSize ciphertext_len) with
                | none =>
                  have e := on_alloc hr hm hlen salt hsalt iv hiv tag htag key hkey hd0
                  simp only [swift_decrypt_data, logged, hr, hm, h60, hsalt, hiv, htag, hkey, hd0, if_true, if_false,
                    Bool.true_eq_false, Bool.false_eq_true]
                  exact e
                | some d0 =>
                  cases hctx : env.EVP_CIPHER_CTX_new_dec with
                  | false =>
                    have e := on_ctx hr hm hlen salt hsalt iv hiv tag htag key hkey d0 hd0 hctx
                    simp only [swift_decrypt_data, logged, hr, hm, h60, hsalt, hiv, htag, hkey, hd0, hctx, if_true, if_false,
                      Bool.true_eq_false, Bool.false_eq_true]
                    exact e
                  | true =>
                    cases hinit : env.EVP_DecryptInit_ex key.bytes iv with
                    | false =>
                      have e := on_init hr hm hlen salt hsalt iv hiv tag htag key hkey d0 hd0 hctx hinit
                      simp only [swift_decrypt_data, logged, hr, hm, h60, hsalt, hiv, htag, hkey, hd0, hctx, hinit, if_true, if_false,
                        Bool.true_eq_false, Bool.false_eq_true]
                      exact e
                    | true =>
                      cases hinput : memread ciphertext (SALT_SIZE + IV_SIZE) (actual_ciphertext_len ciphertext_len).toNat with
                      | none =>
                        have e := on_fault_input hr hm hlen salt hsalt iv hiv tag htag key hkey d0 hd0 hctx hinit hinput
                        simp only [swift_decrypt_data, logged, hr, hm, h60, hsalt, hiv, htag, hkey, hd0, hctx, hinit, hinput, if_true, if_false,
                          Bool.true_eq_false, Bool.false_eq_true]
                        exact e
                      | some input =>
                        cases hupd : env.EVP_DecryptUpdate key.bytes iv input with
                        | none =>
                          have e := on_update hr hm hlen salt hsalt iv hiv tag htag key hkey d0 hd0 hctx hinit input hinput hupd
                          simp only [swift_decrypt_data, logged, hr, hm, h60, hsalt, hiv, htag, hkey, hd0, hctx, hinit, hinput, hupd, if_true, if_false,
                            Bool.true_eq_false, Bool.false_eq_true]
                          exact e
                        | some out1 =>
                          cases hd1 : memcpy d0 0 out1 with
                          | none =>
                            have e := on_fault_update hr hm hlen salt hsalt iv hiv tag htag key hkey d0 hd0 hctx hinit input hinput out1 hupd hd1
                            simp only [swift_decrypt_data, logged, hr, hm, h60, hsalt, hiv, htag, hkey, hd0, hctx, hinit, hinput, hupd, hd1, if_true, if_false,
                              Bool.true_eq_false, Bool.false_eq_true]
                            exact e
                          | some d1 =>
                            cases hset : env.GCM_SET_TAG key.bytes iv input tag with
                            | false =>
                              have e := on_set_tag hr hm hlen salt hsalt iv hiv tag htag key hkey d0 hd0 hctx hinit input hinput out1 hupd d1 hd1 hset
                              simp only [swift_decrypt_data, logged, hr, hm, h60, hsalt, hiv, htag, hkey, hd0, hctx, hinit, hinput, hupd, hd1, hset, if_true, if_false,
                                Bool.true_eq_false, Bool.false_eq_true]
                              exact e
                            | true =>
                              cases hfin : env.EVP_DecryptFinal_ex key.bytes iv input tag with
                              | none =>
                                have e := on_final hr hm hlen salt hsalt iv hiv tag htag key hkey d0 hd0 hctx hinit input hinput out1 hupd d1 hd1 hset hfin
                                simp only [swift_decrypt_data, logged, hr, hm, h60, hsalt, hiv, htag, hkey, hd0, hctx, hinit, hinput, hupd, hd1, hset, hfin, if_true, if_false,
                                  Bool.true_eq_false, Bool.false_eq_true]
                                exact e
                              | some out2 =>
                                cases hd2 : memcpy d1 out1.length out2 with
                                | none =>
                                  have e := on_fault_final hr hm hlen salt hsalt iv hiv tag htag key hkey d0 hd0 hctx hinit input hinput out1 hupd d1 hd1 hset out2 hfin hd2
                                  simp only [swift_decrypt_data, logged, hr, hm, h60, hsalt, hiv, htag, hkey, hd0, hctx, hinit, hinput, hupd, hd1, hset, hfin, hd2, if_true, if_false,
                                    Bool.true_eq_false, Bool.false_eq_true]
                                  exact e
                                | some d2 =>
                                  cases hd3 : memcpy d2 (toInt (out1.length + out2.length)) [0] with
                                  | none =>
                                    have e := on_fault_nul hr hm hlen salt hsalt iv hiv tag htag key hkey d0 hd0 hctx hinit input hinput out1 hupd d1 hd1 hset out2 hfin d2 hd2 hd3
                                    simp only [swift_decrypt_data, logged, hr, hm, h60, hsalt, hiv, htag, hkey, hd0, hctx, hinit, hinput, hupd, hd1, hset, hfin, hd2, hd3, if_true, if_false,
                                      Bool.true_eq_false, Bool.false_eq_true]
                                    exact e
                                  | some d3 =>
                                    have e := on_success hr hm hlen salt hsalt iv hiv tag htag key hkey d0 hd0 hctx hinit input hinput out1 hupd d1 hd1 hset out2 hfin d2 hd2 d3 hd3
                                    simp only [swift_decrypt_data, logged, hr, hm, h60, hsalt, hiv, htag, hkey, hd0, hctx, hinit, hinput, hupd, hd1, hset, hfin, hd2, hd3, military_grade_zero_key key.bytes key.size_eq, if_true, if_false,
                                      Bool.true_eq_false, Bool.false_eq_true]
                                    exact e


/-! ## Claims -/

/-- C9. Secure erase: when `len` does not exceed the size of the buffer,
`military_grade_zero(buffer, len)` returns without a fault, leaves the size of
the buffer unchanged, every byte of `buffer[0..len)` equal to `0x00` and every
byte at an index `>= len` unchanged; with `len = 0` the buffer is unchanged,
and with a null pointer the call does nothing and does not fault. -/
theorem C9_secure_erase (buf : List Byte) (len : Nat) (h : len ≤ buf.length) :
    (∃ out, military_grade_zero (some buf) len = some (some out) ∧
        out.length = buf.length ∧
        (∀ j, j < len → out[j]? = some 0) ∧
        (∀ j, len ≤ j → out[j]? = buf[j]?)) ∧
      military_grade_zero (some buf) 0 = some (some buf) ∧
      military_grade_zero none len = some none := by
  obtain ⟨out, e, l, g⟩ := military_grade_zero_spec buf len h
  refine ⟨⟨out, e, l, ?_, ?_⟩, by simp [military_grade_zero], by simp [military_grade_zero]⟩
  · intro j hj
    simp [g j, hj]
  · intro j hj
    have : ¬ j < len := by omega
    simp [g j, this]

theorem C9_secure_erase_witness :
    (∃ out, military_grade_zero (some ([1, 2, 3, 4] : List Byte)) 2 = some (some out) ∧
        out.length = ([1, 2, 3, 4] : List Byte).length ∧
        (∀ j, j < 2 → out[j]? = some 0) ∧
        (∀ j, 2 ≤ j → out[j]? = ([1, 2, 3, 4] : List Byte)[j]?)) ∧
      military_grade_zero (some ([1, 2, 3, 4] : List Byte)) 0 = some (some [1, 2, 3, 4]) ∧
      military_grade_zero none 2 = some none :=
  C9_secure_erase [1, 2, 3, 4] 2 (by decide)

end Secretino
